import Mathlib

/-!
Shallow embedding of the Sudoku state manager
(`src/sudoku/sudoku.py` and `src/sudoku/exceptions.py`).

The Python `Puzzle` object holds a 9×9 `board` (list of row lists), three
derived views `rows`, `columns`, `boxes` (dicts mapping 0..8 to 9-element
lists), and a `mask` of editable cells.  Crucially, `get_row(i)` returns
`self.board[i]` itself, so the `rows` dict permanently aliases the board's
row lists: a write `self.rows[r][c] = val` mutates the board, and the
board's rows ARE the rows view.  The embedding therefore stores only
`board`, `columns`, `boxes`, `mask`, identifies the rows view with
`board`, and turns every `self.rows[r][c] = ...` of the source into a
board write.  Dicts with keys `0..8` are embedded as 9-element lists.

`update` raises exceptions in Python while mutating the object in place;
the object's state after an exception is observable by the caller, so the
embedding returns the resulting state together with an optional error:
`Puzzle → ... → Puzzle × Option SudokuError`.
-/

/-- The three error kinds of `src/sudoku/exceptions.py`. -/
inductive SudokuError where
  | InvalidValue
  | FixedValue
  | ConflictValue
deriving Repr, DecidableEq

/-- A grid: a Python list of lists of ints (9×9 in intended use). -/
abbrev Grid := List (List Int)

/-- Read `g[r][c]` (default 0 out of range; all uses are in range). -/
def get2 (g : Grid) (r c : Nat) : Int := (g.getD r []).getD c 0

/-- Write `g[r][c] = v` (no-op out of range; all uses are in range). -/
def set2 (g : Grid) (r c : Nat) (v : Int) : Grid :=
  g.set r ((g.getD r []).set c v)

/-- Read `m[r][c]` for the boolean mask. -/
def getMask (m : List (List Bool)) (r c : Nat) : Bool :=
  (m.getD r []).getD c false

/-- `Puzzle.get_row`: `return self.board[index]` (the row list itself). -/
def get_row (board : Grid) (index : Nat) : List Int := board.getD index []

/-- `Puzzle.get_column`: `[self.board[i][index] for i in range(9)]`. -/
def get_column (board : Grid) (index : Nat) : List Int :=
  (List.range 9).map (fun i => get2 board i index)

/-- `Puzzle.get_boxIndex`: `c//3 + (r//3 * 3)`. -/
def get_boxIndex (r c : Nat) : Nat := c / 3 + r / 3 * 3

/-- `Puzzle.get_box`: rows `row..row+2`, slice `[column:column+3]` each. -/
def get_box (board : Grid) (index : Nat) : List Int :=
  let row := index / 3 * 3
  let column := index % 3 * 3
  (List.range 3).flatMap (fun i => ((board.getD (row + i) []).drop column).take 3)

/-- `Puzzle.makeDict`: `{i: func(i) for i in range(9)}` as a 9-list. -/
def makeDict (func : Nat → List Int) : Grid := (List.range 9).map func

/-- `Puzzle.get_mask`: cell editable iff its value is 0. -/
def get_mask (board : Grid) : List (List Bool) :=
  board.map (fun lst => lst.map (fun val => val == 0))

/-- The `Puzzle` object's state.  The rows view is the board itself
(see the module docstring on aliasing), so it is not a separate field. -/
structure Puzzle where
  board : Grid
  columns : Grid
  boxes : Grid
  mask : List (List Bool)
deriving Repr, DecidableEq

/-- `Puzzle.__init__` after `json.load` has produced `board`:
builds the three views and the mask from the initial board. -/
def Puzzle.init (board : Grid) : Puzzle :=
  { board := board
    columns := makeDict (get_column board)
    boxes := makeDict (get_box board)
    mask := get_mask board }

/-- The rows view: aliases the board (`get_row` returns the row list itself). -/
def Puzzle.rows (p : Puzzle) : Grid := p.board

/-- Python's duplicate test `len(lst) != len(set(lst))`. -/
def hasDup (lst : List Int) : Bool := !decide lst.Nodup

/-- `Puzzle.is_valid`: filters zeros out of the cached row, column and box
views at `(row_index, column_index)` and rejects any duplicate. -/
def Puzzle.is_valid (p : Puzzle) (row_index column_index : Nat) : Bool :=
  let box_index := get_boxIndex row_index column_index
  let row := (p.rows.getD row_index []).filter (fun val => val != 0)
  let column := (p.columns.getD column_index []).filter (fun val => val != 0)
  let box := (p.boxes.getD box_index []).filter (fun val => val != 0)
  if hasDup row then false
  else if hasDup column then false
  else if hasDup box then false
  else true

/-- `Puzzle.update`.  The source's three tentative writes are
`rows[r][c] = val` (a board write, by aliasing), `columns[c][r] = val`,
`boxes[b][box] = val`; the rollback on conflict writes `rows[r][c] = prev`,
`columns[c][r] = prev`, and — exactly as in the source, with the swapped
index order of line 194 — `boxes[box][b] = prev`. -/
def Puzzle.update (p : Puzzle) (r c : Nat) (val : Int) :
    Puzzle × Option SudokuError :=
  if val ∉ ([0, 1, 2, 3, 4, 5, 6, 7, 8, 9] : List Int) then
    (p, some .InvalidValue)
  else if getMask p.mask r c = false then
    (p, some .FixedValue)
  else
    let prev := get2 p.board r c
    let box := c % 3 + r % 3 * 3
    let b := get_boxIndex r c
    let p3 : Puzzle :=
      { p with
        board := set2 p.board r c val
        columns := set2 p.columns c r val
        boxes := set2 p.boxes b box val }
    if p3.is_valid r c then
      ({ p3 with board := set2 p3.board r c val }, none)
    else
      ({ p3 with
          board := set2 p3.board r c prev
          columns := set2 p3.columns c r prev
          boxes := set2 p3.boxes box b prev }, some .ConflictValue)

/-- `Puzzle.is_solved`: no zeros anywhere on the board. -/
def Puzzle.is_solved (p : Puzzle) : Bool :=
  p.board.all (fun row => !row.contains 0)

/-- A concrete initial board used by witnesses and counterexamples:
legal, with fixed cells `(0,0) = 5` and `(0,3) = 7`, all else empty. -/
def B0 : Grid :=
  [[5, 0, 0, 7, 0, 0, 0, 0, 0],
   [0, 0, 0, 0, 0, 0, 0, 0, 0],
   [0, 0, 0, 0, 0, 0, 0, 0, 0],
   [0, 0, 0, 0, 0, 0, 0, 0, 0],
   [0, 0, 0, 0, 0, 0, 0, 0, 0],
   [0, 0, 0, 0, 0, 0, 0, 0, 0],
   [0, 0, 0, 0, 0, 0, 0, 0, 0],
   [0, 0, 0, 0, 0, 0, 0, 0, 0],
   [0, 0, 0, 0, 0, 0, 0, 0, 0]]

/-! ### Specification-side predicates

These predicates are stated over the embedded data and are used to
formulate the spec's claims: well-formedness (9×9 shapes), legality of a
grid (no duplicate non-zero value in any unit), and synchronization of
the cached views with the grid. -/

/-- A 9×9 grid: 9 rows, each of length 9. -/
def WFgrid (g : Grid) : Prop := g.length = 9 ∧ ∀ row ∈ g, row.length = 9

instance (g : Grid) : Decidable (WFgrid g) := by unfold WFgrid; infer_instance

/-- All four containers of a `Puzzle` state are 9×9. -/
def WF (p : Puzzle) : Prop :=
  WFgrid p.board ∧ WFgrid p.columns ∧ WFgrid p.boxes ∧
  (p.mask.length = 9 ∧ ∀ row ∈ p.mask, row.length = 9)

instance (p : Puzzle) : Decidable (WF p) := by unfold WF; infer_instance

/-- A grid is legal: in every row, column and box, non-zero values are
pairwise distinct. -/
def LegalBoard (g : Grid) : Prop :=
  (∀ i, i < 9 → ((get_row g i).filter (fun v => v != 0)).Nodup) ∧
  (∀ i, i < 9 → ((get_column g i).filter (fun v => v != 0)).Nodup) ∧
  (∀ i, i < 9 → ((get_box g i).filter (fun v => v != 0)).Nodup)

instance (g : Grid) : Decidable (LegalBoard g) := by unfold LegalBoard; infer_instance

/-- The cached views agree with the grid.  (The rows view needs no
clause: it aliases the board, so it agrees identically.) -/
def Synced (p : Puzzle) : Prop :=
  (∀ j, j < 9 → p.columns.getD j [] = get_column p.board j) ∧
  (∀ b, b < 9 → p.boxes.getD b [] = get_box p.board b)

instance (p : Puzzle) : Decidable (Synced p) := by unfold Synced; infer_instance

/-! ### Basic list-access lemmas -/

theorem getD_set_self {α : Type} {l : List α} {i : Nat} (h : i < l.length)
    (a d : α) : (l.set i a).getD i d = a := by
  rw [List.getD_eq_getElem?_getD, List.getElem?_set_self h]
  rfl

theorem getD_set_ne {α : Type} {l : List α} {i j : Nat} (h : i ≠ j) (a d : α) :
    (l.set i a).getD j d = l.getD j d := by
  rw [List.getD_eq_getElem?_getD, List.getElem?_set_ne h,
    ← List.getD_eq_getElem?_getD]

theorem getD_mem {α : Type} {l : List α} {i : Nat} (h : i < l.length) (d : α) :
    l.getD i d ∈ l := by
  rw [List.getD_eq_getElem?_getD, List.getElem?_eq_getElem h]
  exact List.getElem_mem h

theorem WFgrid.row_length {g : Grid} (h : WFgrid g) {r : Nat} (hr : r < 9) :
    (g.getD r []).length = 9 :=
  h.2 _ (getD_mem (by rw [h.1]; omega) [])

/-! ### `get2` / `set2` interaction -/

theorem get2_set2_self {g : Grid} (hw : WFgrid g) {r c : Nat} (hr : r < 9)
    (hc : c < 9) (v : Int) : get2 (set2 g r c v) r c = v := by
  unfold get2 set2
  rw [getD_set_self (by rw [hw.1]; omega)]
  exact getD_set_self (by rw [hw.row_length hr]; omega) ..

theorem get2_set2_ne {g : Grid} {r c r' c' : Nat} (h : r' ≠ r ∨ c' ≠ c)
    (v : Int) : get2 (set2 g r c v) r' c' = get2 g r' c' := by
  unfold get2 set2
  by_cases hrr : r' = r
  · subst hrr
    rcases h with h | h
    · exact absurd rfl h
    · by_cases hlen : r' < g.length
      · rw [getD_set_self hlen, getD_set_ne (fun e => h e.symm)]
      · rw [List.set_eq_of_length_le (by omega)]
  · rw [getD_set_ne (fun e => hrr e.symm)]

theorem set2_length (g : Grid) (r c : Nat) (v : Int) :
    (set2 g r c v).length = g.length := by
  simp [set2]

theorem set2_out_of_range {g : Grid} {r : Nat} (h : g.length ≤ r) (c : Nat)
    (v : Int) : set2 g r c v = g :=
  List.set_eq_of_length_le h

theorem set2_set2 (g : Grid) (r c : Nat) (v w : Int) :
    set2 (set2 g r c v) r c w = set2 g r c w := by
  by_cases h : r < g.length
  · unfold set2
    rw [getD_set_self h, List.set_set, List.set_set]
  · have e : set2 g r c v = g := set2_out_of_range (by omega) c v
    rw [e]

theorem WFgrid_set2 {g : Grid} (hw : WFgrid g) (r c : Nat) (v : Int) :
    WFgrid (set2 g r c v) := by
  obtain ⟨h1, h2⟩ := hw
  by_cases hr : r < g.length
  · refine ⟨by rw [set2_length, h1], ?_⟩
    intro row hrow
    rcases List.mem_or_eq_of_mem_set hrow with h | h
    · exact h2 _ h
    · subst h
      rw [List.length_set]
      exact h2 _ (getD_mem hr [])
  · rw [set2_out_of_range (by omega)]
    exact ⟨h1, h2⟩

theorem getD_set2_row {g : Grid} {r : Nat} (h : r < g.length) (c : Nat)
    (v : Int) : (set2 g r c v).getD r [] = (g.getD r []).set c v :=
  getD_set_self h ..

theorem getD_set2_row_ne {g : Grid} {r j : Nat} (h : r ≠ j) (c : Nat)
    (v : Int) : (set2 g r c v).getD j [] = g.getD j [] :=
  getD_set_ne h ..

/-! ### `get_column` and `get_box` access lemmas -/

theorem length_get_column (g : Grid) (c : Nat) : (get_column g c).length = 9 := by
  simp [get_column]

theorem getElem?_get_column (g : Grid) (c r : Nat) :
    (get_column g c)[r]? = if r < 9 then some (get2 g r c) else none := by
  unfold get_column
  rw [List.getElem?_map]
  by_cases h : r < 9
  · rw [List.getElem?_range h, if_pos h]
    rfl
  · rw [List.getElem?_eq_none (by simp; omega), if_neg h]
    rfl

theorem getD_get_column (g : Grid) {c r : Nat} (hr : r < 9) :
    (get_column g c).getD r 0 = get2 g r c := by
  rw [List.getD_eq_getElem?_getD, getElem?_get_column, if_pos hr]
  rfl

theorem get_box_eq (g : Grid) (i : Nat) :
    get_box g i =
      ((g.getD (i / 3 * 3) []).drop (i % 3 * 3)).take 3 ++
      (((g.getD (i / 3 * 3 + 1) []).drop (i % 3 * 3)).take 3 ++
       ((g.getD (i / 3 * 3 + 2) []).drop (i % 3 * 3)).take 3) := by
  simp [get_box, List.range_succ]

theorem box_seg_length {g : Grid} (hw : WFgrid g) {ri : Nat} (hri : ri < 9)
    {d : Nat} (hd : d ≤ 6) : (((g.getD ri []).drop d).take 3).length = 3 := by
  rw [List.length_take, List.length_drop, hw.row_length hri]
  omega

theorem length_get_box {g : Grid} (hw : WFgrid g) {i : Nat} (hi : i < 9) :
    (get_box g i).length = 9 := by
  have hd : i % 3 * 3 ≤ 6 := by omega
  rw [get_box_eq, List.length_append, List.length_append,
    box_seg_length hw (by omega) hd, box_seg_length hw (by omega) hd,
    box_seg_length hw (by omega) hd]

theorem seg_getElem? {row : List Int} {d j : Nat} (hj : j < 3) :
    ((row.drop d).take 3)[j]? = row[d + j]? := by
  rw [List.getElem?_take, if_pos hj, List.getElem?_drop]

theorem getElem?_row {g : Grid} (hw : WFgrid g) {r n : Nat} (hr : r < 9)
    (hn : n < 9) : (g.getD r [])[n]? = some (get2 g r n) := by
  have hlen := hw.row_length hr
  unfold get2
  rw [List.getD_eq_getElem?_getD (g.getD r []) n 0,
    List.getElem?_eq_getElem (by omega)]
  rfl

theorem getElem?_get_box {g : Grid} (hw : WFgrid g) {i : Nat} (hi : i < 9)
    (k : Nat) :
    (get_box g i)[k]? =
      if k < 9 then some (get2 g (i / 3 * 3 + k / 3) (i % 3 * 3 + k % 3))
      else none := by
  have hd : i % 3 * 3 ≤ 6 := by omega
  by_cases hk : k < 9
  · rw [if_pos hk, get_box_eq, List.getElem?_append,
      box_seg_length hw (by omega : i / 3 * 3 < 9) hd]
    by_cases h3 : k < 3
    · rw [if_pos h3, seg_getElem? h3, getElem?_row hw (by omega) (by omega)]
      rw [show i / 3 * 3 + k / 3 = i / 3 * 3 from by omega,
        show i % 3 * 3 + k % 3 = i % 3 * 3 + k from by omega]
    · rw [if_neg h3, List.getElem?_append,
        box_seg_length hw (by omega : i / 3 * 3 + 1 < 9) hd]
      by_cases h6 : k - 3 < 3
      · rw [if_pos h6, seg_getElem? h6, getElem?_row hw (by omega) (by omega)]
        rw [show i / 3 * 3 + k / 3 = i / 3 * 3 + 1 from by omega,
          show i % 3 * 3 + k % 3 = i % 3 * 3 + (k - 3) from by omega]
      · rw [if_neg h6, seg_getElem? (show k - 3 - 3 < 3 from by omega),
          getElem?_row hw (by omega) (by omega)]
        rw [show i / 3 * 3 + k / 3 = i / 3 * 3 + 2 from by omega,
          show i % 3 * 3 + k % 3 = i % 3 * 3 + (k - 3 - 3) from by omega]
  · rw [if_neg hk, List.getElem?_eq_none (by rw [length_get_box hw hi]; omega)]

theorem getD_get_box {g : Grid} (hw : WFgrid g) {i k : Nat} (hi : i < 9)
    (hk : k < 9) :
    (get_box g i).getD k 0 = get2 g (i / 3 * 3 + k / 3) (i % 3 * 3 + k % 3) := by
  rw [List.getD_eq_getElem?_getD, getElem?_get_box hw hi, if_pos hk]
  rfl

/-- The cell of the grid sitting at position `k` of box `b` is `(r, c)`
exactly when `b` is the box index of `(r, c)` and `k` is the in-box
position `c % 3 + r % 3 * 3` used by `Puzzle.update`. -/
theorem box_cell_unique {b k r c : Nat} (hb : b < 9) (hk : k < 9) (hr : r < 9)
    (hc : c < 9) :
    (b / 3 * 3 + k / 3 = r ∧ b % 3 * 3 + k % 3 = c) ↔
      (b = get_boxIndex r c ∧ k = c % 3 + r % 3 * 3) := by
  unfold get_boxIndex
  omega

theorem get_boxIndex_lt {r c : Nat} (hr : r < 9) (hc : c < 9) :
    get_boxIndex r c < 9 := by
  unfold get_boxIndex
  omega

/-! ### Unfolding `Puzzle.update` -/

/-- `Puzzle.update` with its local bindings inlined (definitional). -/
theorem update_def (p : Puzzle) (r c : Nat) (val : Int) :
    p.update r c val =
      if val ∉ ([0, 1, 2, 3, 4, 5, 6, 7, 8, 9] : List Int) then
        (p, some .InvalidValue)
      else if getMask p.mask r c = false then
        (p, some .FixedValue)
      else if Puzzle.is_valid
          ⟨set2 p.board r c val, set2 p.columns c r val,
           set2 p.boxes (get_boxIndex r c) (c % 3 + r % 3 * 3) val, p.mask⟩
          r c then
        (⟨set2 (set2 p.board r c val) r c val, set2 p.columns c r val,
          set2 p.boxes (get_boxIndex r c) (c % 3 + r % 3 * 3) val, p.mask⟩,
         none)
      else
        (⟨set2 (set2 p.board r c val) r c (get2 p.board r c),
          set2 (set2 p.columns c r val) c r (get2 p.board r c),
          set2 (set2 p.boxes (get_boxIndex r c) (c % 3 + r % 3 * 3) val)
            (c % 3 + r % 3 * 3) (get_boxIndex r c) (get2 p.board r c),
          p.mask⟩,
         some .ConflictValue) := rfl

/-- What a successful `update` implies: the value was in range, the cell
was editable, the tentative state passed `is_valid`, and the resulting
state is exactly the tentative state (the success branch's second board
write is idempotent). -/
theorem update_ok (p : Puzzle) (r c : Nat) (val : Int)
    (hok : (p.update r c val).2 = none) :
    val ∈ ([0, 1, 2, 3, 4, 5, 6, 7, 8, 9] : List Int) ∧
    getMask p.mask r c = true ∧
    Puzzle.is_valid
      ⟨set2 p.board r c val, set2 p.columns c r val,
       set2 p.boxes (get_boxIndex r c) (c % 3 + r % 3 * 3) val, p.mask⟩
      r c = true ∧
    (p.update r c val).1 =
      ⟨set2 p.board r c val, set2 p.columns c r val,
       set2 p.boxes (get_boxIndex r c) (c % 3 + r % 3 * 3) val, p.mask⟩ := by
  rw [update_def] at hok
  split at hok
  next hmem => simp at hok
  next hmem =>
    split at hok
    next hmask => simp at hok
    next hmask =>
      split at hok
      next hvalid =>
        refine ⟨not_not.mp hmem, ?_, hvalid, ?_⟩
        · cases h : getMask p.mask r c
          · exact absurd h hmask
          · rfl
        · rw [update_def, if_neg hmem, if_neg hmask, if_pos hvalid]
          simp [set2_set2]
      next hvalid => simp at hok

/-- `is_valid` as a proposition: no duplicate among the non-zero values
of the row (read off the board, which the rows view aliases), the cached
column view, and the cached box view. -/
theorem is_valid_iff (p : Puzzle) (r c : Nat) :
    p.is_valid r c = true ↔
      ((p.board.getD r []).filter (fun v => v != 0)).Nodup ∧
      ((p.columns.getD c []).filter (fun v => v != 0)).Nodup ∧
      ((p.boxes.getD (get_boxIndex r c) []).filter (fun v => v != 0)).Nodup := by
  unfold Puzzle.is_valid Puzzle.rows hasDup
  by_cases h1 : ((p.board.getD r []).filter (fun v => v != 0)).Nodup <;>
    by_cases h2 : ((p.columns.getD c []).filter (fun v => v != 0)).Nodup <;>
      by_cases h3 :
          ((p.boxes.getD (get_boxIndex r c) []).filter (fun v => v != 0)).Nodup <;>
        simp [h1, h2, h3]

/-- Setting a cell to `0` can only shrink the non-zero content of a
list: the filtered result is a sublist of the original's. -/
theorem filter_set_zero_sublist (l : List Int) (i : Nat) :
    ((l.set i 0).filter (fun v => v != 0)).Sublist
      (l.filter (fun v => v != 0)) := by
  by_cases h : i < l.length
  · rw [List.set_eq_take_cons_drop _ h]
    conv_rhs => rw [← List.take_append_drop i l,
      ← List.getElem_cons_drop l i h]
    rw [List.filter_append, List.filter_append]
    apply List.Sublist.append_left
    rw [List.filter_cons, List.filter_cons]
    rw [if_neg (by simp)]
    split
    · exact List.sublist_cons_self _ _
    · exact List.Sublist.refl _
  · rw [List.set_eq_of_length_le (by omega)]

/-! ### How a single-cell write changes the derived units -/

theorem get_column_set2_ne {g : Grid} {r c j : Nat} (hj : j ≠ c) (v : Int) :
    get_column (set2 g r c v) j = get_column g j := by
  unfold get_column
  apply List.map_congr_left
  intro i _
  exact get2_set2_ne (Or.inr hj) v

theorem get_column_set2_self {g : Grid} (hw : WFgrid g) {r c : Nat}
    (hr : r < 9) (hc : c < 9) (v : Int) :
    get_column (set2 g r c v) c = (get_column g c).set r v := by
  apply List.ext_getElem?
  intro n
  rw [getElem?_get_column, List.getElem?_set, length_get_column]
  by_cases hrn : r = n
  · subst hrn
    rw [if_pos rfl, if_pos hr, if_pos hr]
    exact congrArg some (get2_set2_self hw hr hc v)
  · rw [if_neg hrn, getElem?_get_column]
    by_cases hn : n < 9
    · rw [if_pos hn, if_pos hn]
      exact congrArg some (get2_set2_ne (Or.inl (fun e => hrn e.symm)) v)
    · rw [if_neg hn, if_neg hn]

theorem get_box_set2_ne {g : Grid} (hw : WFgrid g) {r c b' : Nat} (hr : r < 9)
    (hc : c < 9) (hb' : b' < 9) (hne : b' ≠ get_boxIndex r c) (v : Int) :
    get_box (set2 g r c v) b' = get_box g b' := by
  apply List.ext_getElem?
  intro k
  rw [getElem?_get_box (WFgrid_set2 hw r c v) hb', getElem?_get_box hw hb']
  by_cases hk : k < 9
  · rw [if_pos hk, if_pos hk]
    refine congrArg some (get2_set2_ne ?_ v)
    by_contra hcon
    push_neg at hcon
    exact hne ((box_cell_unique hb' hk hr hc).mp ⟨hcon.1, hcon.2⟩).1
  · rw [if_neg hk, if_neg hk]

theorem get_box_set2_self {g : Grid} (hw : WFgrid g) {r c : Nat} (hr : r < 9)
    (hc : c < 9) (v : Int) :
    get_box (set2 g r c v) (get_boxIndex r c) =
      (get_box g (get_boxIndex r c)).set (c % 3 + r % 3 * 3) v := by
  have hb : get_boxIndex r c < 9 := get_boxIndex_lt hr hc
  apply List.ext_getElem?
  intro k
  rw [getElem?_get_box (WFgrid_set2 hw r c v) hb, List.getElem?_set,
    length_get_box hw hb]
  by_cases hk : k < 9
  · by_cases hkp : c % 3 + r % 3 * 3 = k
    · rw [if_pos hk, if_pos hkp, if_pos (by omega)]
      have hcell := (box_cell_unique hb hk hr hc).mpr ⟨rfl, hkp.symm⟩
      rw [hcell.1, hcell.2]
      exact congrArg some (get2_set2_self hw hr hc v)
    · rw [if_pos hk, if_neg hkp, getElem?_get_box hw hb, if_pos hk]
      refine congrArg some (get2_set2_ne ?_ v)
      by_contra hcon
      push_neg at hcon
      exact hkp ((box_cell_unique hb hk hr hc).mp ⟨hcon.1, hcon.2⟩).2.symm
  · by_cases hkp : c % 3 + r % 3 * 3 = k
    · exfalso
      omega
    · rw [if_neg hk, if_neg hkp, getElem?_get_box hw hb, if_neg hk]

/-! ### The claims -/

/-- C1 (code bug): the claim demands that a `ConflictValue` failure of
`update` leave the entire state — grid and all three derived views —
exactly as before the call.  The code's rollback writes
`boxes[box][b] = prev` with the index order swapped relative to the
forward write `boxes[b][box] = val` (line 194 of `sudoku.py`), so at the
failing input below the grid and columns are restored but the boxes view
is not: box 0 keeps the phantom `5` at position 1, and box 1 loses its
`7` at position 0. -/
theorem C1_conflict_rollback_corrupts_boxes :
    (((Puzzle.init B0).update 0 1 5).2 = some SudokuError.ConflictValue) ∧
    ((Puzzle.init B0).update 0 1 5).1.board = (Puzzle.init B0).board ∧
    ((Puzzle.init B0).update 0 1 5).1.columns = (Puzzle.init B0).columns ∧
    ((Puzzle.init B0).update 0 1 5).1.boxes ≠ (Puzzle.init B0).boxes ∧
    get2 ((Puzzle.init B0).update 0 1 5).1.boxes 0 1 = 5 ∧
    get2 (Puzzle.init B0).boxes 0 1 = 0 ∧
    get2 ((Puzzle.init B0).update 0 1 5).1.boxes 1 0 = 0 ∧
    get2 (Puzzle.init B0).boxes 1 0 = 7 := by decide

/-- C2 (code bug): the claim demands that after any sequence of `update`
calls on a legal initial grid the grid stays legal.  Because a conflict
rollback corrupts the boxes view (see `sudoku.py` line 194), a later
update can pass `is_valid` against the stale view and commit a duplicate
into a box of the real grid: starting from the legal `B0`,
`update(0,1,5)` raises `ConflictValue` (losing box 1's `7` from the
view), then `update(1,4,7)` succeeds and the grid ends with two `7`s in
box 1 — an illegal state. -/
theorem C2_grid_becomes_illegal :
    LegalBoard B0 ∧
    (((Puzzle.init B0).update 0 1 5).2 = some SudokuError.ConflictValue) ∧
    ((((Puzzle.init B0).update 0 1 5).1.update 1 4 7).2 = none) ∧
    ¬ LegalBoard ((((Puzzle.init B0).update 0 1 5).1.update 1 4 7).1.board) := by
  decide

/-- C3 (counterexample): the claim says `is_valid(r,c)` is equivalent to
duplicate-freedom of the three units of the *grid* containing `(r,c)`.
In the reachable state after the conflicting `update(0,1,5)` on `B0`,
the grid's row 0, column 0 and box 0 are all duplicate-free, yet
`is_valid(0,0)` returns false: it reads the cached boxes view, which the
buggy rollback left holding a phantom duplicate `5` in box 0. -/
theorem C3_counterexample_desynced_box :
    (((Puzzle.init B0).update 0 1 5).1.is_valid 0 0 = false) ∧
    ((get_row ((Puzzle.init B0).update 0 1 5).1.board 0).filter
      (fun v => v != 0)).Nodup ∧
    ((get_column ((Puzzle.init B0).update 0 1 5).1.board 0).filter
      (fun v => v != 0)).Nodup ∧
    ((get_box ((Puzzle.init B0).update 0 1 5).1.board
      (get_boxIndex 0 0)).filter (fun v => v != 0)).Nodup := by decide

/-- C3 (amended): `is_valid(r,c)` returns true iff the non-zero values
of the row `r` it reads off the board (the rows view aliases the grid),
of the cached column view `columns[c]`, and of the cached box view
`boxes[boxIndex(r,c)]` each contain no repeated value; it inspects only
those three units.  This coincides with the claim's grid units whenever
the views agree with the grid, but not in general (the box view can
desync after a conflict rollback). -/
theorem C3_is_valid_checks_cached_units (p : Puzzle) (r c : Nat) :
    p.is_valid r c = true ↔
      ((get_row p.board r).filter (fun v => v != 0)).Nodup ∧
      ((p.columns.getD c []).filter (fun v => v != 0)).Nodup ∧
      ((p.boxes.getD (get_boxIndex r c) []).filter (fun v => v != 0)).Nodup :=
  is_valid_iff p r c

/-- C4: for every state and `r, c` in range, an integer `val` outside
`[0,9]` makes `update` fail with `InvalidValue` — before the fixed-cell
and conflict checks, whatever the mask or board hold — and the returned
state is exactly the input state. -/
theorem C4_invalid_value (p : Puzzle) (r c : Nat) (val : Int) (hr : r < 9)
    (hc : c < 9) (hval : val < 0 ∨ 9 < val) :
    p.update r c val = (p, some SudokuError.InvalidValue) := by
  have hmem : val ∉ ([0, 1, 2, 3, 4, 5, 6, 7, 8, 9] : List Int) := by
    intro hm
    simp at hm
    omega
  rw [update_def, if_pos hmem]

/-- C4 witness at `val = 10` on the fixed cell `(0,0)` of `B0`. -/
theorem C4_invalid_value_witness :
    (0 : Nat) < 9 ∧ (0 : Nat) < 9 ∧ ((10 : Int) < 0 ∨ 9 < (10 : Int)) ∧
    (Puzzle.init B0).update 0 0 10 =
      (Puzzle.init B0, some SudokuError.InvalidValue) :=
  ⟨by decide, by decide, Or.inr (by decide),
   C4_invalid_value (Puzzle.init B0) 0 0 10 (by decide) (by decide)
     (Or.inr (by decide))⟩

/-- C5: for every state, `r, c` in range and legal `val` in `[0,9]`, if
the target cell is fixed (`mask[r][c]` false) then `update` fails with
`FixedValue` and returns the state unchanged. -/
theorem C5_fixed_cell (p : Puzzle) (r c : Nat) (val : Int) (hr : r < 9)
    (hc : c < 9) (h0 : 0 ≤ val) (h9 : val ≤ 9)
    (hfix : getMask p.mask r c = false) :
    p.update r c val = (p, some SudokuError.FixedValue) := by
  have hmem : val ∈ ([0, 1, 2, 3, 4, 5, 6, 7, 8, 9] : List Int) := by
    simp
    omega
  rw [update_def, if_neg (not_not_intro hmem), if_pos hfix]

/-- C5 witness: the fixed cell `(0,0)` of `B0` (initial value 5) rejects
the legal value 3 with `FixedValue`, state unchanged. -/
theorem C5_fixed_cell_witness :
    (0 : Nat) < 9 ∧ (0 : Nat) < 9 ∧ (0 : Int) ≤ 3 ∧ (3 : Int) ≤ 9 ∧
    getMask (Puzzle.init B0).mask 0 0 = false ∧
    (Puzzle.init B0).update 0 0 3 =
      (Puzzle.init B0, some SudokuError.FixedValue) :=
  ⟨by decide, by decide, by decide, by decide, by decide,
   C5_fixed_cell (Puzzle.init B0) 0 0 3 (by decide) (by decide) (by decide)
     (by decide) (by decide)⟩

/-- C7: `boxIndex(r,c)` computes `c/3 + (r/3)*3` by integer division for
all `r, c`, with the anchor values `boxIndex(0,0)=0`, `boxIndex(0,8)=2`,
`boxIndex(8,8)=8`, `boxIndex(4,4)=4` of the left-to-right, top-to-bottom
box numbering. -/
theorem C7_boxIndex_formula (r c : Nat) :
    get_boxIndex r c = c / 3 + r / 3 * 3 ∧
    get_boxIndex 0 0 = 0 ∧ get_boxIndex 0 8 = 2 ∧
    get_boxIndex 8 8 = 8 ∧ get_boxIndex 4 4 = 4 :=
  ⟨rfl, rfl, rfl, rfl, rfl⟩

/-- C6: when `update(r,c,val)` succeeds, the grid holds `val` at `(r,c)`
— read back through `get_row`, `get_column` and `get_box` at the box
position `c%3 + (r%3)*3` — and every other grid cell is unchanged. -/
theorem C6_success_updates_exactly_one_cell (p : Puzzle) (r c : Nat)
    (val : Int) (hw : WF p) (hr : r < 9) (hc : c < 9)
    (hok : (p.update r c val).2 = none) :
    get2 (p.update r c val).1.board r c = val ∧
    (get_row (p.update r c val).1.board r).getD c 0 = val ∧
    (get_column (p.update r c val).1.board c).getD r 0 = val ∧
    (get_box (p.update r c val).1.board (get_boxIndex r c)).getD
      (c % 3 + r % 3 * 3) 0 = val ∧
    (∀ r' c', r' < 9 → c' < 9 → ¬(r' = r ∧ c' = c) →
      get2 (p.update r c val).1.board r' c' = get2 p.board r' c') := by
  obtain ⟨-, -, -, heq⟩ := update_ok p r c val hok
  rw [heq]
  refine ⟨get2_set2_self hw.1 hr hc val, get2_set2_self hw.1 hr hc val,
    ?_, ?_, ?_⟩
  · show (get_column (set2 p.board r c val) c).getD r 0 = val
    rw [getD_get_column _ hr]
    exact get2_set2_self hw.1 hr hc val
  · show (get_box (set2 p.board r c val) (get_boxIndex r c)).getD
      (c % 3 + r % 3 * 3) 0 = val
    rw [getD_get_box (WFgrid_set2 hw.1 r c val) (get_boxIndex_lt hr hc)
      (by omega)]
    have hcell := (box_cell_unique (get_boxIndex_lt hr hc) (by omega) hr
      hc).mpr ⟨rfl, rfl⟩
    rw [hcell.1, hcell.2]
    exact get2_set2_self hw.1 hr hc val
  · intro r' c' hr' hc' hne
    show get2 (set2 p.board r c val) r' c' = get2 p.board r' c'
    refine get2_set2_ne ?_ val
    by_cases h : r' = r
    · exact Or.inr (fun e => hne ⟨h, e⟩)
    · exact Or.inl h

/-- C6 witness: on `Puzzle.init B0`, `update(1,4,3)` succeeds and the
conclusion holds there. -/
theorem C6_success_witness :
    WF (Puzzle.init B0) ∧ (1 : Nat) < 9 ∧ (4 : Nat) < 9 ∧
    (((Puzzle.init B0).update 1 4 3).2 = none) ∧
    (get2 ((Puzzle.init B0).update 1 4 3).1.board 1 4 = 3 ∧
     (get_row ((Puzzle.init B0).update 1 4 3).1.board 1).getD 4 0 = 3 ∧
     (get_column ((Puzzle.init B0).update 1 4 3).1.board 4).getD 1 0 = 3 ∧
     (get_box ((Puzzle.init B0).update 1 4 3).1.board
       (get_boxIndex 1 4)).getD (4 % 3 + 1 % 3 * 3) 0 = 3 ∧
     (∀ r' c', r' < 9 → c' < 9 → ¬(r' = 1 ∧ c' = 4) →
       get2 ((Puzzle.init B0).update 1 4 3).1.board r' c' =
         get2 (Puzzle.init B0).board r' c')) :=
  ⟨by decide, by decide, by decide, by decide,
   C6_success_updates_exactly_one_cell (Puzzle.init B0) 1 4 3 (by decide)
     (by decide) (by decide) (by decide)⟩

/-- C8: if `update(r,c,val)` succeeds, the immediate second call
`update(r,c,val)` also succeeds and returns exactly the same state: the
repeat is a no-op. -/
theorem C8_idempotent_success (p : Puzzle) (r c : Nat) (val : Int)
    (hr : r < 9) (hc : c < 9) (hok : (p.update r c val).2 = none) :
    (p.update r c val).1.update r c val = ((p.update r c val).1, none) := by
  obtain ⟨hmem, hmask, hvalid, heq⟩ := update_ok p r c val hok
  rw [heq, update_def]
  rw [if_neg (not_not_intro hmem)]
  rw [if_neg (fun h => by
    have h' : getMask p.mask r c = false := h
    rw [hmask] at h'
    exact Bool.noConfusion h')]
  simp only [set2_set2]
  rw [if_pos hvalid]

/-- C8 witness: the successful `update(1,4,3)` on `Puzzle.init B0`
repeated is a no-op. -/
theorem C8_idempotent_witness :
    (1 : Nat) < 9 ∧ (4 : Nat) < 9 ∧
    (((Puzzle.init B0).update 1 4 3).2 = none) ∧
    ((Puzzle.init B0).update 1 4 3).1.update 1 4 3 =
      (((Puzzle.init B0).update 1 4 3).1, none) :=
  ⟨by decide, by decide, by decide,
   C8_idempotent_success (Puzzle.init B0) 1 4 3 (by decide) (by decide)
     (by decide)⟩

/-- C9: a successful `update` keeps the cached views synchronized with
the grid — if `columns[j]` is column `j` and `boxes[b]` is box `b` of
the grid for all `j, b` before the call (the rows view aliases the grid
and agrees identically), the same holds after it: the forward writes to
the row (through the board alias), `columns[c][r]`,
`boxes[boxIndex(r,c)][c%3 + (r%3)*3]` and the grid all target the same
logical cell `(r,c)`. -/
theorem C9_views_stay_synced (p : Puzzle) (r c : Nat) (val : Int)
    (hw : WF p) (hs : Synced p) (hr : r < 9) (hc : c < 9)
    (hok : (p.update r c val).2 = none) :
    Synced (p.update r c val).1 := by
  obtain ⟨-, -, -, heq⟩ := update_ok p r c val hok
  rw [heq]
  obtain ⟨hwb, hwc, hwx, -⟩ := hw
  obtain ⟨hsc, hsx⟩ := hs
  constructor
  · intro j hj
    show (set2 p.columns c r val).getD j [] =
      get_column (set2 p.board r c val) j
    by_cases hjc : j = c
    · subst hjc
      rw [getD_set2_row (by rw [hwc.1]; omega), hsc j hj,
        get_column_set2_self hwb hr hc val]
    · rw [getD_set2_row_ne (fun e => hjc e.symm), hsc j hj,
        get_column_set2_ne hjc val]
  · intro b' hb'
    show (set2 p.boxes (get_boxIndex r c) (c % 3 + r % 3 * 3) val).getD b' []
      = get_box (set2 p.board r c val) b'
    by_cases hbb : b' = get_boxIndex r c
    · subst hbb
      rw [getD_set2_row (by rw [hwx.1]; exact hb'), hsx _ hb',
        get_box_set2_self hwb hr hc val]
    · rw [getD_set2_row_ne (fun e => hbb e.symm), hsx b' hb',
        get_box_set2_ne hwb hr hc hb' hbb val]

/-- C9 witness: views of `Puzzle.init B0` are synced, `update(1,4,3)`
succeeds, and the views are still synced afterwards. -/
theorem C9_views_synced_witness :
    WF (Puzzle.init B0) ∧ Synced (Puzzle.init B0) ∧
    (1 : Nat) < 9 ∧ (4 : Nat) < 9 ∧
    (((Puzzle.init B0).update 1 4 3).2 = none) ∧
    Synced ((Puzzle.init B0).update 1 4 3).1 :=
  ⟨by decide, by decide, by decide, by decide, by decide,
   C9_views_stay_synced (Puzzle.init B0) 1 4 3 (by decide) (by decide)
     (by decide) (by decide) (by decide)⟩

/-- C10: on a well-formed state whose grid is legal and whose views
agree with the grid, clearing any editable cell — `update(r,c,0)` —
always succeeds: zeros are filtered out of every duplicate check, and
writing a 0 only shrinks each unit's non-zero content. -/
theorem C10_clear_never_conflicts (p : Puzzle) (r c : Nat) (hw : WF p)
    (hs : Synced p) (hl : LegalBoard p.board) (hr : r < 9) (hc : c < 9)
    (hm : getMask p.mask r c = true) :
    (p.update r c 0).2 = none := by
  have hvalid : Puzzle.is_valid
      ⟨set2 p.board r c 0, set2 p.columns c r 0,
       set2 p.boxes (get_boxIndex r c) (c % 3 + r % 3 * 3) 0, p.mask⟩
      r c = true := by
    rw [is_valid_iff]
    refine ⟨?_, ?_, ?_⟩
    · show (((set2 p.board r c 0).getD r []).filter (fun v => v != 0)).Nodup
      rw [getD_set2_row (by rw [hw.1.1]; omega)]
      exact List.Nodup.sublist (filter_set_zero_sublist _ c) (hl.1 r hr)
    · show (((set2 p.columns c r 0).getD c []).filter (fun v => v != 0)).Nodup
      rw [getD_set2_row (by rw [hw.2.1.1]; omega), hs.1 c hc]
      exact List.Nodup.sublist (filter_set_zero_sublist _ r) (hl.2.1 c hc)
    · show (((set2 p.boxes (get_boxIndex r c) (c % 3 + r % 3 * 3) 0).getD
        (get_boxIndex r c) []).filter (fun v => v != 0)).Nodup
      rw [getD_set2_row (by rw [hw.2.2.1.1]; exact get_boxIndex_lt hr hc),
        hs.2 _ (get_boxIndex_lt hr hc)]
      exact List.Nodup.sublist (filter_set_zero_sublist _ _)
        (hl.2.2 _ (get_boxIndex_lt hr hc))
  rw [update_def]
  rw [if_neg (by simp :
    ¬((0 : Int) ∉ ([0, 1, 2, 3, 4, 5, 6, 7, 8, 9] : List Int)))]
  rw [if_neg (by rw [hm]; simp)]
  rw [if_pos hvalid]

/-- C10 witness: clearing the editable empty cell `(0,1)` of
`Puzzle.init B0` succeeds. -/
theorem C10_clear_witness :
    WF (Puzzle.init B0) ∧ Synced (Puzzle.init B0) ∧
    LegalBoard (Puzzle.init B0).board ∧ (0 : Nat) < 9 ∧ (1 : Nat) < 9 ∧
    getMask (Puzzle.init B0).mask 0 1 = true ∧
    (((Puzzle.init B0).update 0 1 0).2 = none) :=
  ⟨by decide, by decide, by decide, by decide, by decide, by decide,
   C10_clear_never_conflicts (Puzzle.init B0) 0 1 (by decide) (by decide)
     (by decide) (by decide) (by decide) (by decide)⟩
